import Mathlib

/-!
Verification of the keras-yolo3 streaming detection pipeline (`yolo.py`).

The development shallowly embeds the parts of `yolo.py` that the spec's
claims are about:

* the box clipping arithmetic of `YOLO.detect_image` (lines 142-146);
* the canvas-size selection / multiple-of-32 check of `YOLO.detect_image`
  (lines 99-106);
* the producer overflow policy of `detect_picamera` (lines 263-274) and the
  consumer loop of `detect_picamera_yolo_thread_func` (lines 284-291), as a
  small-step transition system over the two bounded queues;
* the palette generation of `YOLO.generate` (lines 77-86), with numpy's
  globally seeded RNG modelled as explicit state threading;
* the interactive retry loop of `detect_img` (lines 215-236);
* the in-place annotation drawing of `YOLO.detect_image` (lines 133-163),
  over an explicit heap of pixel buffers;
* the letterbox geometry (`computeLetterboxPlan` and its inverse), modelled
  from the spec because `yolo3/utils.py` is not part of the given source.
-/

namespace Yolo

/-! ## Box clipping (`YOLO.detect_image`, yolo.py lines 142-146)

The source computes, for raw detector output `top, left, bottom, right`
(floats in source-image coordinates):
  `top    = max(0, np.floor(top + 0.5).astype(int32))`
  `left   = max(0, np.floor(left + 0.5).astype(int32))`
  `bottom = min(image.size[1], np.floor(bottom + 0.5).astype(int32))`
  `right  = min(image.size[0], np.floor(right + 0.5).astype(int32))`
Raw coordinates are embedded as rationals, the clipped ones as integers. -/

/-- Round-half-up rounding, `np.floor(x + 0.5)` of the source. -/
def roundHalfUp (x : ℚ) : ℤ := ⌊x + 1 / 2⌋

/-- Clipped top coordinate: `max(0, floor(top + 0.5))`. -/
def clipTop (top : ℚ) : ℤ := max 0 (roundHalfUp top)

/-- Clipped left coordinate: `max(0, floor(left + 0.5))`. -/
def clipLeft (left : ℚ) : ℤ := max 0 (roundHalfUp left)

/-- Clipped bottom coordinate: `min(imageHeight, floor(bottom + 0.5))`. -/
def clipBottom (imageHeight : ℕ) (bottom : ℚ) : ℤ :=
  min (imageHeight : ℤ) (roundHalfUp bottom)

/-- Clipped right coordinate: `min(imageWidth, floor(right + 0.5))`. -/
def clipRight (imageWidth : ℕ) (right : ℚ) : ℤ :=
  min (imageWidth : ℤ) (roundHalfUp right)

/-! ## Canvas-size selection (`YOLO.detect_image`, yolo.py lines 99-106)

`self.model_image_size` is either a fixed `(height, width)` pair — in which
case both components are asserted to be multiples of 32 and the letterbox
canvas is `tuple(reversed(model_image_size))` — or `(None, None)`, in which
case the canvas is the frame size rounded down to multiples of 32 and no
assertion runs. -/

/-- Error raised when a fixed canvas dimension is not a multiple of 32
(the `assert ... % 32 == 0` statements of the source). -/
inductive CanvasError where
  | invalidCanvasSize
deriving DecidableEq

/-- Canvas selection of `detect_image`: a fixed `modelImageSize` is given as
`some (height, width)` and must have both components multiples of 32 (two
`assert`s in the source); `none` models `(None, None)` (auto sizing), where
the canvas is the frame size rounded down to multiples of 32. The result is
the `(width, height)` canvas passed to `letterbox_image`. -/
def computeCanvas (modelImageSize : Option (ℕ × ℕ)) (frameW frameH : ℕ) :
    Except CanvasError (ℕ × ℕ) :=
  match modelImageSize with
  | some (mh, mw) =>
    if mh % 32 = 0 then
      if mw % 32 = 0 then .ok (mw, mh)
      else .error .invalidCanvasSize
    else .error .invalidCanvasSize
  | none => .ok (frameW - frameW % 32, frameH - frameH % 32)

/-! ## Producer overflow policy (`detect_picamera`, yolo.py lines 263-274)

With no consumer dequeuing (the scenario of the end-to-end claim), one
producer push on the capacity-4 queue is: if the queue is full, sleep, then
drain it completely, then enqueue the new frame; otherwise just enqueue. -/

/-- One producer push with nobody consuming: `if cam_q.full(): sleep(1);
while not cam_q.empty(): cam_q.get()` followed by `cam_q.put(img)`.
`queue.Queue(4).full()` holds exactly when the queue holds 4 items. -/
def pushFrame (q : List ℕ) (x : ℕ) : List ℕ :=
  if 4 ≤ q.length then [x] else q ++ [x]

/-- Queue contents after pushing frames `0, 1, ..., n-1` in order onto an
initially empty capacity-4 queue with no consumer. -/
def pushSequence (n : ℕ) : List ℕ := (List.range n).foldl pushFrame []

/-! ## Interactive image loop (`detect_img`, yolo.py lines 215-236)

Each iteration: if `img_path` is the empty string the user is prompted for a
filename, otherwise the fixed `img_path` is used; `Image.open` is attempted;
on failure the loop prints and `continue`s; on success the image is detected
and shown, and the loop `break`s only when `img_path` is non-empty. -/

/-- Outcome of one iteration of the `detect_img` loop: either the open
failed and the loop retries, or the image was displayed (`stop` tells
whether the loop then breaks because a fixed path was supplied). -/
inductive IterOutcome where
  | retry
  | display (stop : Bool)
deriving DecidableEq

/-- Filename used by one iteration: the prompt answer when `imgPath` is
empty, the fixed `imgPath` otherwise. -/
def chosenImg (imgPath promptAnswer : String) : String :=
  if imgPath = "" then promptAnswer else imgPath

/-- Whether an iteration of the loop prompts the user for a filename:
exactly when the configured path is empty. -/
def promptsFor (imgPath : String) : Bool := imgPath = ""

/-- One iteration of the `detect_img` loop. `openOk` models whether
`Image.open` succeeds on a given filename. -/
def detectImgIter (imgPath promptAnswer : String) (openOk : String → Bool) :
    IterOutcome :=
  if openOk (chosenImg imgPath promptAnswer) then .display (imgPath ≠ "")
  else .retry

/-! ## Letterbox geometry (spec §4.1)

`detect_image` (yolo.py lines 99-106) delegates the forward transform to
`letterbox_image` from `yolo3/utils.py`, and the inverse box mapping happens
inside `yolo_eval` from `yolo3/model.py`; neither file is part of the given
source, so both are modelled from the spec. -/

/-- Letterbox plan for a source frame against a target canvas: a single
aspect-preserving scale, the resized frame size, and the symmetric padding
offsets. -/
structure LetterboxPlan where
  scale : ℚ
  resizedW : ℤ
  resizedH : ℤ
  padLeft : ℤ
  padTop : ℤ
deriving DecidableEq

/-- Modelled from the spec: `computeLetterboxPlan` (the `letterbox_image`
function of `yolo3/utils.py`, not under the given source). Per §4.1:
`scale = min(canvasWidth/frameWidth, canvasHeight/frameHeight)`,
`resizedSize = round(frameSize * scale)` per axis, and
`padding = floor((canvasSize - resizedSize) / 2)` per axis. -/
def computeLetterboxPlan (w h cw ch : ℕ) : LetterboxPlan :=
  let scale : ℚ := min ((cw : ℚ) / (w : ℚ)) ((ch : ℚ) / (h : ℚ))
  let rw : ℤ := roundHalfUp ((w : ℚ) * scale)
  let rh : ℤ := roundHalfUp ((h : ℚ) * scale)
  { scale := scale, resizedW := rw, resizedH := rh,
    padLeft := Int.fdiv ((cw : ℤ) - rw) 2,
    padTop := Int.fdiv ((ch : ℤ) - rh) 2 }

/-- Axis-aligned box with rational coordinates, in the source's
`(top, left, bottom, right)` order. -/
structure Box where
  top : ℚ
  left : ℚ
  bottom : ℚ
  right : ℚ
deriving DecidableEq

/-- Modelled from the spec: the forward letterbox coordinate map (applied by
`letterbox_image` of `yolo3/utils.py`): scale by `plan.scale`, then offset
by the padding. -/
def forwardMap (p : LetterboxPlan) (b : Box) : Box :=
  { top := b.top * p.scale + (p.padTop : ℚ),
    left := b.left * p.scale + (p.padLeft : ℚ),
    bottom := b.bottom * p.scale + (p.padTop : ℚ),
    right := b.right * p.scale + (p.padLeft : ℚ) }

/-- Modelled from the spec: `mapBoxToSource` (performed inside `yolo_eval`
of `yolo3/model.py`, not under the given source): subtract the padding,
divide by the scale. -/
def mapBoxToSource (p : LetterboxPlan) (b : Box) : Box :=
  { top := (b.top - (p.padTop : ℚ)) / p.scale,
    left := (b.left - (p.padLeft : ℚ)) / p.scale,
    bottom := (b.bottom - (p.padTop : ℚ)) / p.scale,
    right := (b.right - (p.padLeft : ℚ)) / p.scale }

/-! ## Producer/consumer pipeline (yolo.py lines 239-291)

`detect_picamera` creates two capacity-4 queues (`queue.Queue(4)`), spawns
the consumer thread `detect_picamera_yolo_thread_func`, and runs the
producer loop. The two threads are embedded as a small-step transition
system: each constructor of `Step` is one atomic queue access or control
transfer of the source, and arbitrary interleavings are allowed.
`queue.Queue` semantics: `put` blocks while the queue holds 4 items,
`get` blocks while it is empty, `full()`/`empty()` are non-blocking
observations. -/

/-- Frames are identified by their capture sequence number. -/
abbrev Frame := ℕ

/-- Producer control points, following the loop body of `detect_picamera`
(lines 263-279): capture a frame (or receive `KeyboardInterrupt`), test
`cam_q.full()`, drain the queue, `cam_q.put`, drain `processed_q` for
display, and after the loop set `quit_thread` and join the consumer. -/
inductive ProdPC where
  | capture
  | checkFull (f : Frame)
  | draining (f : Frame)
  | putting (f : Frame)
  | present
  | settingQuit
  | joining
  | stopped
deriving DecidableEq

/-- Consumer control points, following
`detect_picamera_yolo_thread_func` (lines 284-291): test `quit_thread`,
blocking `cam_queue.get()`, then (after `detect_image`, which touches no
queue) `out_queue.put`. -/
inductive ConsPC where
  | loopCheck
  | getting
  | putting (r : Frame)
  | stopped
deriving DecidableEq

/-- Shared state of the pipeline: the two bounded queues, the
`quit_thread` flag, both threads' control points, and the next capture
sequence number. -/
structure PipeState where
  camQ : List Frame
  outQ : List Frame
  quit : Bool
  prod : ProdPC
  cons : ConsPC
  nextSeq : ℕ
deriving DecidableEq

/-- Thread identifiers. -/
inductive Tid where
  | producer
  | consumer
deriving DecidableEq

/-- One atomic step of one thread. Guards encode `queue.Queue(4)`
semantics: `put` proceeds only when the queue length is below 4, `get`
only when the queue is non-empty. -/
inductive Step : Tid → PipeState → PipeState → Prop where
  | capture (s : PipeState) (h : s.prod = .capture) :
      Step .producer s
        { s with prod := .checkFull s.nextSeq, nextSeq := s.nextSeq + 1 }
  | interrupt (s : PipeState) (h : s.prod = .capture) :
      Step .producer s { s with prod := .settingQuit }
  | checkFullTrue (s : PipeState) (f : Frame) (h : s.prod = .checkFull f)
      (hq : 4 ≤ s.camQ.length) :
      Step .producer s { s with prod := .draining f }
  | checkFullFalse (s : PipeState) (f : Frame) (h : s.prod = .checkFull f)
      (hq : s.camQ.length < 4) :
      Step .producer s { s with prod := .putting f }
  | drainOne (s : PipeState) (f : Frame) (h : s.prod = .draining f)
      (hq : s.camQ ≠ []) :
      Step .producer s { s with camQ := s.camQ.tail, prod := .draining f }
  | drainDone (s : PipeState) (f : Frame) (h : s.prod = .draining f)
      (hq : s.camQ = []) :
      Step .producer s { s with prod := .putting f }
  | prodPut (s : PipeState) (f : Frame) (h : s.prod = .putting f)
      (hq : s.camQ.length < 4) :
      Step .producer s { s with camQ := s.camQ ++ [f], prod := .present }
  | presentOne (s : PipeState) (h : s.prod = .present) (hq : s.outQ ≠ []) :
      Step .producer s { s with outQ := s.outQ.tail, prod := .present }
  | presentDone (s : PipeState) (h : s.prod = .present) (hq : s.outQ = []) :
      Step .producer s { s with prod := .capture }
  | setQuitFlag (s : PipeState) (h : s.prod = .settingQuit) :
      Step .producer s { s with quit := true, prod := .joining }
  | joinDone (s : PipeState) (h : s.prod = .joining)
      (hc : s.cons = .stopped) :
      Step .producer s { s with prod := .stopped }
  | consCheckQuit (s : PipeState) (h : s.cons = .loopCheck)
      (hq : s.quit = true) :
      Step .consumer s { s with cons := .stopped }
  | consCheckRun (s : PipeState) (h : s.cons = .loopCheck)
      (hq : s.quit = false) :
      Step .consumer s { s with cons := .getting }
  | consGet (s : PipeState) (f : Frame) (rest : List Frame)
      (h : s.cons = .getting) (hq : s.camQ = f :: rest) :
      Step .consumer s { s with camQ := rest, cons := .putting f }
  | consPut (s : PipeState) (r : Frame) (h : s.cons = .putting r)
      (hq : s.outQ.length < 4) :
      Step .consumer s { s with outQ := s.outQ ++ [r], cons := .loopCheck }

/-- Initial state of a pipeline run: both queues empty, flag down, both
threads at the top of their loops. -/
def initState : PipeState :=
  { camQ := [], outQ := [], quit := false, prod := .capture,
    cons := .loopCheck, nextSeq := 0 }

/-- Some thread makes a step. -/
def AnyStep (a b : PipeState) : Prop := ∃ t, Step t a b

/-- States reachable from the initial state by interleaved steps. -/
def Reachable (s : PipeState) : Prop :=
  Relation.ReflTransGen AnyStep initState s

/-- Executable enabledness test for a thread: `true` exactly when the
thread has some step (proved in `stepEnabled_iff`); `false` means the
thread is blocked (or finished). -/
def stepEnabled (t : Tid) (s : PipeState) : Bool :=
  match t with
  | .producer =>
    match s.prod with
    | .capture => true
    | .checkFull _ => true
    | .draining _ => true
    | .putting _ => decide (s.camQ.length < 4)
    | .present => true
    | .settingQuit => true
    | .joining => decide (s.cons = ConsPC.stopped)
    | .stopped => false
  | .consumer =>
    match s.cons with
    | .loopCheck => true
    | .getting => !s.camQ.isEmpty
    | .putting _ => decide (s.outQ.length < 4)
    | .stopped => false

/-- State reached when the producer has taken `KeyboardInterrupt`, set the
quit flag and begun joining, while the consumer sits in its blocking
`cam_queue.get()` on an empty input queue. -/
def stuckState : PipeState :=
  { camQ := [], outQ := [], quit := true, prod := .joining,
    cons := .getting, nextSeq := 1 }

/-- State in which the consumer holds a processed result and faces a full
output queue: its `out_queue.put` is blocked. -/
def blockedPutState : PipeState :=
  { camQ := [], outQ := [0, 1, 2, 3], quit := false, prod := .present,
    cons := .putting 4, nextSeq := 5 }

/-! ## Palette generation (`YOLO.generate`, yolo.py lines 77-86)

The source builds one fully saturated HSV hue per class, converts with
`colorsys.hsv_to_rgb`, scales to 0..255, then
`np.random.seed(10101); np.random.shuffle(colors); np.random.seed(None)`.
numpy's globally seeded generator is an external collaborator: it is
modelled as explicit state threading through an arbitrary deterministic
seeded generator, which is all the determinism claim depends on. -/

/-- colorsys.hsv_to_rgb at saturation = value = 1 (so `p = 0`,
`q = 1 - f`, `t = f`). `int(h * 6.0)` is floor, the hues used being
non-negative. -/
def hsvToRgbUnit (hue : ℚ) : ℚ × ℚ × ℚ :=
  let i : ℤ := ⌊hue * 6⌋
  let f : ℚ := hue * 6 - i
  let q : ℚ := 1 - f
  let t : ℚ := f
  match (i % 6).toNat with
  | 0 => (1, t, 0)
  | 1 => (q, 1, 0)
  | 2 => (0, 1, t)
  | 3 => (0, q, 1)
  | 4 => (t, 0, 1)
  | _ => (1, 0, q)

/-- The `int(x * 255)` conversion; truncation is floor on the non-negative
channel values produced here. -/
def to255 (x : ℚ) : ℤ := ⌊x * 255⌋

/-- The unshuffled per-class colors: hue `x / n` for class `x` of `n`. -/
def classColors (n : ℕ) : List (ℤ × ℤ × ℤ) :=
  (List.range n).map (fun x =>
    let c := hsvToRgbUnit ((x : ℚ) / (n : ℚ))
    (to255 c.1, to255 c.2.1, to255 c.2.2))

/-- Modelled numpy global RNG: `np.random.seed(k)` replaces the global
state with a deterministic function of `k` alone. numpy's actual Mersenne
Twister is an external collaborator; any deterministic seeded generator
carries the determinism argument. -/
def seedState (seed : ℕ) : ℕ :=
  (6364136223846793005 * seed + 1442695040888963407) % 2 ^ 64

/-- Modelled numpy global RNG: drawing advances the state
deterministically. -/
def nextRand (s : ℕ) : ℕ :=
  (6364136223846793005 * s + 1442695040888963407) % 2 ^ 64

/-- Draw an index below `bound` and the advanced state. -/
def randBelow (s bound : ℕ) : ℕ × ℕ :=
  let s2 := nextRand s
  (s2 % bound, s2)

/-- Exchange the elements at positions `i` and `j`. -/
def listSwap (l : List α) (i j : ℕ) : List α :=
  match l[i]?, l[j]? with
  | some a, some b => (l.set i b).set j a
  | _, _ => l

/-- Fisher-Yates loop of `np.random.shuffle`: for `i` from `n - 1` down to
1, draw `j` uniformly in `0..i` and swap positions `i` and `j`, threading
the RNG state. -/
def shuffleGo : List α → ℕ → ℕ → List α × ℕ
  | l, s, 0 => (l, s)
  | l, s, i + 1 =>
    let p := randBelow s (i + 2)
    shuffleGo (listSwap l (i + 1) p.1) p.2 i

/-- `np.random.shuffle` on the global RNG state. -/
def npShuffle (l : List α) (s : ℕ) : List α × ℕ :=
  shuffleGo l s (l.length - 1)

/-- Palette generation of `YOLO.generate` (yolo.py lines 77-86) with the
global numpy RNG state passed explicitly: build the HSV-derived colors,
`np.random.seed(10101)` (overwriting whatever ambient state the global RNG
had), shuffle, then `np.random.seed(None)` (reseeding from OS entropy,
modelled by the `entropy` parameter). Returns the colors and the final
global RNG state. -/
def generateColors (classNames : List String) (_ambientRng entropy : ℕ) :
    List (ℤ × ℤ × ℤ) × ℕ :=
  let colors := classColors classNames.length
  let s1 := seedState 10101
  let p := npShuffle colors s1
  let s3 := seedState entropy
  (p.1, s3)

/-! ## In-place annotation drawing (`YOLO.detect_image`, yolo.py 133-163)

`detect_image` calls `ImageDraw.Draw(image)` on the frame it was given and
draws into that buffer, finally returning `image` itself. Pixel buffers
live on an explicit heap of references so that in-place mutation versus a
separate annotated copy is observable. PIL's rectangle primitives are
modelled concretely; the glyph pixels of `draw.text` come from an external
font file and are abstracted (they would only add further writes to the
same buffer). -/

/-- RGB color. -/
abbrev Color := ℤ × ℤ × ℤ

/-- A pixel buffer, addressed by column and row. -/
abbrev PixBuf := ℤ → ℤ → Color

/-- The heap of pixel buffers, addressed by reference. -/
abbrev Heap := ℕ → PixBuf

/-- PIL `draw.rectangle([x0, y0, x1, y1], outline=c)`: paints the
one-pixel border of the closed rectangle. -/
def drawRectOutline (img : PixBuf) (x0 y0 x1 y1 : ℤ) (c : Color) : PixBuf :=
  fun x y =>
    if (x0 ≤ x ∧ x ≤ x1 ∧ y0 ≤ y ∧ y ≤ y1) ∧
        (x = x0 ∨ x = x1 ∨ y = y0 ∨ y = y1) then c
    else img x y

/-- PIL `draw.rectangle([x0, y0, x1, y1], fill=c)`: paints the closed
rectangle solid. -/
def drawRectFill (img : PixBuf) (x0 y0 x1 y1 : ℤ) (c : Color) : PixBuf :=
  fun x y =>
    if x0 ≤ x ∧ x ≤ x1 ∧ y0 ≤ y ∧ y ≤ y1 then c
    else img x y

/-- A raw detection as fed to the drawing loop. -/
structure Detection where
  top : ℚ
  left : ℚ
  bottom : ℚ
  right : ℚ
  score : ℚ
  classIndex : ℕ

/-- Drawing for one detection once the box is clipped to integer
coordinates: `thickness = (w + h) // 300` concentric outlines inset by
`0..thickness-1`, then the filled label background at `text_origin`
(above the box when the label fits, else just inside at `top + 1`). -/
def renderClipped (w h : ℕ) (colors : List Color) (labelW labelH : ℤ)
    (img : PixBuf) (top left bottom right : ℤ) (classIndex : ℕ) : PixBuf :=
  let thickness : ℤ := ((w : ℤ) + (h : ℤ)) / 300
  let c := colors.getD classIndex (0, 0, 0)
  let textOrigin : ℤ × ℤ :=
    if labelH ≤ top then (left, top - labelH) else (left, top + 1)
  let img1 := (List.range thickness.toNat).foldl
    (fun im i =>
      drawRectOutline im (left + i) (top + i) (right - i) (bottom - i) c)
    img
  drawRectFill img1 textOrigin.1 textOrigin.2 (textOrigin.1 + labelW)
    (textOrigin.2 + labelH) c

/-- Drawing for one detection (yolo.py lines 142-163): clip the raw box
with round-half-up and clamping, then draw. -/
def renderDetection (w h : ℕ) (colors : List Color) (labelW labelH : ℤ)
    (img : PixBuf) (d : Detection) : PixBuf :=
  renderClipped w h colors labelW labelH img (clipTop d.top)
    (clipLeft d.left) (clipBottom h d.bottom) (clipRight w d.right)
    d.classIndex

/-- The drawing loop of `detect_image`: detections are drawn in reverse
index order (line 133). -/
def renderAll (w h : ℕ) (colors : List Color) (labelW labelH : ℤ)
    (img : PixBuf) (dets : List Detection) : PixBuf :=
  dets.reverse.foldl (renderDetection w h colors labelW labelH) img

/-- `detect_image` at the heap level: the annotations are drawn into the
buffer of the frame reference passed in (`ImageDraw.Draw(image)`), and
that same reference is returned (`return image`). -/
def detectImageHeap (hp : Heap) (r : ℕ) (w h : ℕ) (colors : List Color)
    (labelW labelH : ℤ) (dets : List Detection) : Heap × ℕ :=
  (fun ref =>
    if ref = r then renderAll w h colors labelW labelH (hp r) dets
    else hp ref, r)

/-- All-black heap used as a concrete starting point. -/
def blankHeap : Heap := fun _ => fun _ _ => (0, 0, 0)

/-- A concrete in-frame detection. -/
def sampleDetection : Detection :=
  { top := 100, left := 100, bottom := 200, right := 200,
    score := 9 / 10, classIndex := 0 }

/-! ### Theorems -/

/-- Helper: compute `roundHalfUp` from the floor characterisation. -/
theorem roundHalfUp_eq (x : ℚ) (n : ℤ) (h1 : (n : ℚ) ≤ x + 1 / 2)
    (h2 : x + 1 / 2 < n + 1) : roundHalfUp x = n := by
  unfold roundHalfUp
  rw [Int.floor_eq_iff]
  exact ⟨h1, h2⟩

/-- Helper: round-half-up of a value at most an integer is at most that
integer. -/
theorem roundHalfUp_le_intCast {x : ℚ} {n : ℤ} (h : x ≤ (n : ℚ)) :
    roundHalfUp x ≤ n := by
  have h2 : ⌊x + 1 / 2⌋ ≤ ⌊(n : ℚ) + 1 / 2⌋ := Int.floor_le_floor (by linarith)
  have h0 : ⌊(1 / 2 : ℚ)⌋ = 0 := by
    rw [Int.floor_eq_iff]
    norm_num
  have h3 : ⌊(n : ℚ) + 1 / 2⌋ = n := by
    rw [add_comm, Int.floor_add_int, h0, zero_add]
  unfold roundHalfUp
  omega

/-- Claim C9: the letterbox stage fails with `InvalidCanvasSize` exactly
when a fixed target canvas dimension is not a multiple of 32 and auto
sizing is not enabled; with auto sizing the canvas dimensions are the
frame's own dimensions rounded down to the nearest multiple of 32 (the
greatest multiple of 32 not exceeding each dimension) and no error is
raised. -/
theorem computeCanvas_error_iff_and_auto (cfg : Option (ℕ × ℕ)) (w h : ℕ) :
    (computeCanvas cfg w h = .error .invalidCanvasSize ↔
      ∃ mh mw, cfg = some (mh, mw) ∧ (mh % 32 ≠ 0 ∨ mw % 32 ≠ 0)) ∧
    computeCanvas none w h = .ok (w - w % 32, h - h % 32) ∧
    (w - w % 32) % 32 = 0 ∧ (h - h % 32) % 32 = 0 ∧
    w - w % 32 ≤ w ∧ w < (w - w % 32) + 32 ∧
    h - h % 32 ≤ h ∧ h < (h - h % 32) + 32 := by
  refine ⟨?_, rfl, by omega, by omega, by omega, by omega, by omega, by omega⟩
  match cfg with
  | none => simp [computeCanvas]
  | some (mh, mw) =>
    by_cases h1 : mh % 32 = 0 <;> by_cases h2 : mw % 32 = 0 <;>
      simp [computeCanvas, h1, h2] <;>
      exact ⟨mh, mw, ⟨rfl, rfl⟩, by tauto⟩

/-- Claim C1 counterexample: pushing 10 frames onto the capacity-4 queue
with no consumer does not leave exactly 1 frame queued. -/
theorem pushSequence_ten_ne_one : ¬ (pushSequence 10).length = 1 := by decide

/-- Claim C1 (amended): pushing 10 frames onto the capacity-4 queue with no
consumer leaves exactly 2 frames queued at the end (the overflow policy
fires at pushes 5 and 9; immediately after each firing exactly 1 frame is
queued — witnessed by the state after 9 pushes — and the 10th push then
adds a second frame, the drained queue not being full again). -/
theorem pushSequence_ten_length :
    (pushSequence 10).length = 2 ∧ (pushSequence 9).length = 1 ∧
    pushSequence 10 = [8, 9] := by decide

/-- Claim C10 counterexample: with a fixed non-empty image path whose open
always fails, the iteration retries but the user is never re-prompted for a
new filename, contradicting the claim that every open failure leads to a
re-prompt. -/
theorem detectImg_fixed_path_no_reprompt :
    detectImgIter "missing.jpg" "other.jpg" (fun _ => false) = .retry ∧
    ¬ promptsFor "missing.jpg" = true := by
  constructor
  · rfl
  · decide

/-- Claim C10 (amended): an image-open failure never terminates the loop
(the iteration always retries), but the caller is re-prompted for a new
filename only in interactive mode, i.e. exactly when the configured image
path is the empty string; with a non-empty fixed path the loop retries the
same path without prompting. -/
theorem detectImg_open_failure_retries (imgPath promptAnswer : String)
    (openOk : String → Bool)
    (hfail : openOk (chosenImg imgPath promptAnswer) = false) :
    detectImgIter imgPath promptAnswer openOk = .retry ∧
    (promptsFor imgPath = true ↔ imgPath = "") ∧
    chosenImg imgPath promptAnswer = (if imgPath = "" then promptAnswer else imgPath) := by
  refine ⟨?_, ?_, rfl⟩
  · simp [detectImgIter, hfail]
  · simp [promptsFor]

/-- Claim C5: for positive frame sizes and canvas sizes that are multiples
of 32, the letterbox plan's resized size is componentwise at most the
canvas size, and mapping a box forward through the letterbox transform and
back through its inverse returns the original box exactly (hence within one
pixel of rounding error). -/
theorem letterbox_resized_le_and_roundtrip (w h cw ch : ℕ) (b : Box)
    (hw : 0 < w) (hh : 0 < h) (hcw : 0 < cw) (hch : 0 < ch)
    (_hcw32 : cw % 32 = 0) (_hch32 : ch % 32 = 0) :
    (computeLetterboxPlan w h cw ch).resizedW ≤ (cw : ℤ) ∧
    (computeLetterboxPlan w h cw ch).resizedH ≤ (ch : ℤ) ∧
    mapBoxToSource (computeLetterboxPlan w h cw ch)
      (forwardMap (computeLetterboxPlan w h cw ch) b) = b := by
  have hw' : (0 : ℚ) < w := by exact_mod_cast hw
  have hh' : (0 : ℚ) < h := by exact_mod_cast hh
  have hcw' : (0 : ℚ) < cw := by exact_mod_cast hcw
  have hch' : (0 : ℚ) < ch := by exact_mod_cast hch
  have hscale : (computeLetterboxPlan w h cw ch).scale
      = min ((cw : ℚ) / w) ((ch : ℚ) / h) := rfl
  have hsp : 0 < (computeLetterboxPlan w h cw ch).scale := by
    rw [hscale]
    exact lt_min (div_pos hcw' hw') (div_pos hch' hh')
  have hsne : (computeLetterboxPlan w h cw ch).scale ≠ 0 := ne_of_gt hsp
  refine ⟨?_, ?_, ?_⟩
  · have h1 : (w : ℚ) * (computeLetterboxPlan w h cw ch).scale ≤ cw := by
      rw [hscale]
      calc (w : ℚ) * min ((cw : ℚ) / w) ((ch : ℚ) / h)
          ≤ (w : ℚ) * ((cw : ℚ) / w) :=
            mul_le_mul_of_nonneg_left (min_le_left _ _) (le_of_lt hw')
        _ = cw := by field_simp
    exact roundHalfUp_le_intCast (by exact_mod_cast h1)
  · have h1 : (h : ℚ) * (computeLetterboxPlan w h cw ch).scale ≤ ch := by
      rw [hscale]
      calc (h : ℚ) * min ((cw : ℚ) / w) ((ch : ℚ) / h)
          ≤ (h : ℚ) * ((ch : ℚ) / h) :=
            mul_le_mul_of_nonneg_left (min_le_right _ _) (le_of_lt hh')
        _ = ch := by field_simp
    exact roundHalfUp_le_intCast (by exact_mod_cast h1)
  · obtain ⟨bt, bl, bb, br⟩ := b
    simp only [mapBoxToSource, forwardMap, Box.mk.injEq]
    refine ⟨?_, ?_, ?_, ?_⟩ <;> field_simp

/-- Claim C5 witness: the theorem applied to a 100x200 frame, a 416x416
canvas, and the box (0, 0, 50, 50). -/
theorem letterbox_resized_le_and_roundtrip_witness :
    (computeLetterboxPlan 100 200 416 416).resizedW ≤ (416 : ℤ) ∧
    (computeLetterboxPlan 100 200 416 416).resizedH ≤ (416 : ℤ) ∧
    mapBoxToSource (computeLetterboxPlan 100 200 416 416)
      (forwardMap (computeLetterboxPlan 100 200 416 416) ⟨0, 0, 50, 50⟩)
      = ⟨0, 0, 50, 50⟩ :=
  letterbox_resized_le_and_roundtrip 100 200 416 416 ⟨0, 0, 50, 50⟩
    (by norm_num) (by norm_num) (by norm_num) (by norm_num)
    (by norm_num) (by norm_num)

/-- Claim C4 counterexample: for a raw detector box lying wholly outside a
416x416 frame (top = left = -10, bottom = right = -5), the clipped
coordinates violate the claimed chain: the clipped left is 0 while the
clipped right is -5, so `0 ≤ left ≤ right` fails. -/
theorem clip_chain_counterexample :
    ¬ (0 ≤ clipLeft (-10) ∧ clipLeft (-10) ≤ clipRight 416 (-5) ∧
       clipRight 416 (-5) ≤ (416 : ℤ) ∧
       0 ≤ clipTop (-10) ∧ clipTop (-10) ≤ clipBottom 416 (-5) ∧
       clipBottom 416 (-5) ≤ (416 : ℤ)) := by
  have hl : roundHalfUp (-10) = -10 :=
    roundHalfUp_eq _ _ (by norm_num) (by norm_num)
  have hr : roundHalfUp (-5) = -5 :=
    roundHalfUp_eq _ _ (by norm_num) (by norm_num)
  intro hc
  obtain ⟨-, h2, -⟩ := hc
  unfold clipLeft clipRight at h2
  rw [hl, hr] at h2
  omega

/-- Claim C4 (amended): the clips always individually satisfy
`0 ≤ left`, `0 ≤ top`, `right ≤ frameWidth`, `bottom ≤ frameHeight`; the
full chains `0 ≤ left ≤ right ≤ frameWidth` and
`0 ≤ top ≤ bottom ≤ frameHeight` additionally hold whenever the rounded
raw box is non-degenerate and meets the frame, i.e.
`round(left) ≤ round(right)`, `0 ≤ round(right)`,
`round(left) ≤ frameWidth` (and the vertical counterparts) — conditions a
box wholly outside the frame violates. -/
theorem clip_chain_bounds (w h : ℕ) (t l b r : ℚ)
    (hlr : roundHalfUp l ≤ roundHalfUp r) (hr0 : 0 ≤ roundHalfUp r)
    (hlw : roundHalfUp l ≤ (w : ℤ))
    (htb : roundHalfUp t ≤ roundHalfUp b) (hb0 : 0 ≤ roundHalfUp b)
    (hth : roundHalfUp t ≤ (h : ℤ)) :
    0 ≤ clipLeft l ∧ clipLeft l ≤ clipRight w r ∧ clipRight w r ≤ (w : ℤ) ∧
    0 ≤ clipTop t ∧ clipTop t ≤ clipBottom h b ∧
    clipBottom h b ≤ (h : ℤ) := by
  unfold clipLeft clipRight clipTop clipBottom
  omega

/-- Claim C4 witness: the amended theorem applied to the in-frame box
(20, 30, 100, 200) on a 416x416 frame. -/
theorem clip_chain_bounds_witness :
    0 ≤ clipLeft 30 ∧ clipLeft 30 ≤ clipRight 416 200 ∧
    clipRight 416 200 ≤ (416 : ℤ) ∧
    0 ≤ clipTop 20 ∧ clipTop 20 ≤ clipBottom 416 100 ∧
    clipBottom 416 100 ≤ (416 : ℤ) := by
  have h20 : roundHalfUp 20 = 20 :=
    roundHalfUp_eq _ _ (by norm_num) (by norm_num)
  have h30 : roundHalfUp 30 = 30 :=
    roundHalfUp_eq _ _ (by norm_num) (by norm_num)
  have h100 : roundHalfUp 100 = 100 :=
    roundHalfUp_eq _ _ (by norm_num) (by norm_num)
  have h200 : roundHalfUp 200 = 200 :=
    roundHalfUp_eq _ _ (by norm_num) (by norm_num)
  exact clip_chain_bounds 416 416 20 30 100 200
    (by rw [h30, h200]; norm_num) (by rw [h200]; norm_num)
    (by rw [h30]; norm_num) (by rw [h20, h100]; norm_num)
    (by rw [h100]; norm_num) (by rw [h20]; norm_num)

/-- Helper: `stepEnabled` is a sound and complete enabledness test — a
thread has some step from a state exactly when `stepEnabled` says so. -/
theorem stepEnabled_iff (t : Tid) (s : PipeState) :
    stepEnabled t s = true ↔ ∃ s2, Step t s s2 := by
  constructor
  · intro he
    cases t with
    | producer =>
      unfold stepEnabled at he
      cases hp : s.prod with
      | capture => exact ⟨_, .capture s hp⟩
      | checkFull f =>
        by_cases hq : 4 ≤ s.camQ.length
        · exact ⟨_, .checkFullTrue s f hp hq⟩
        · exact ⟨_, .checkFullFalse s f hp (by omega)⟩
      | draining f =>
        by_cases hq : s.camQ = []
        · exact ⟨_, .drainDone s f hp hq⟩
        · exact ⟨_, .drainOne s f hp hq⟩
      | putting f =>
        rw [hp] at he
        simp only [decide_eq_true_eq] at he
        exact ⟨_, .prodPut s f hp he⟩
      | present =>
        by_cases hq : s.outQ = []
        · exact ⟨_, .presentDone s hp hq⟩
        · exact ⟨_, .presentOne s hp hq⟩
      | settingQuit => exact ⟨_, .setQuitFlag s hp⟩
      | joining =>
        rw [hp] at he
        simp only [decide_eq_true_eq] at he
        exact ⟨_, .joinDone s hp he⟩
      | stopped =>
        rw [hp] at he
        simp at he
    | consumer =>
      unfold stepEnabled at he
      cases hc : s.cons with
      | loopCheck =>
        cases hq : s.quit with
        | true => exact ⟨_, .consCheckQuit s hc hq⟩
        | false => exact ⟨_, .consCheckRun s hc hq⟩
      | getting =>
        rw [hc] at he
        simp only [Bool.not_eq_true'] at he
        cases hq : s.camQ with
        | nil =>
          rw [hq] at he
          simp at he
        | cons f rest => exact ⟨_, .consGet s f rest hc hq⟩
      | putting r =>
        rw [hc] at he
        simp only [decide_eq_true_eq] at he
        exact ⟨_, .consPut s r hc he⟩
      | stopped =>
        rw [hc] at he
        simp at he
  · intro hex
    obtain ⟨s2, h⟩ := hex
    cases h <;> simp_all [stepEnabled]

/-- Helper: every step preserves the capacity bound of both queues. -/
theorem qbound_preserved (t : Tid) (a b : PipeState) (h : Step t a b)
    (h1 : a.camQ.length ≤ 4) (h2 : a.outQ.length ≤ 4) :
    b.camQ.length ≤ 4 ∧ b.outQ.length ≤ 4 := by
  cases h <;> simp_all <;> omega

/-- Claim C3: at every observation point of a pipeline run — every state
reachable from the initial state by any interleaving of producer and
consumer steps — each bounded queue holds at most 4 items. -/
theorem queue_bound_invariant (s : PipeState) (h : Reachable s) :
    s.camQ.length ≤ 4 ∧ s.outQ.length ≤ 4 := by
  unfold Reachable at h
  induction h with
  | refl => exact ⟨by decide, by decide⟩
  | tail hab hstep ih =>
    obtain ⟨t, hst⟩ := hstep
    exact qbound_preserved t _ _ hst ih.1 ih.2

/-- Helper: the state with the quit flag set, the producer joining, and
the consumer inside its blocking get on an empty queue is reachable. -/
theorem reachable_stuckState : Reachable stuckState := by
  have h0 : Reachable initState := Relation.ReflTransGen.refl
  have h1 : Reachable ⟨[], [], false, .checkFull 0, .loopCheck, 1⟩ :=
    Relation.ReflTransGen.tail h0 ⟨.producer, .capture _ rfl⟩
  have h2 : Reachable ⟨[], [], false, .putting 0, .loopCheck, 1⟩ :=
    Relation.ReflTransGen.tail h1 ⟨.producer, .checkFullFalse _ _ rfl (by decide)⟩
  have h3 : Reachable ⟨[0], [], false, .present, .loopCheck, 1⟩ :=
    Relation.ReflTransGen.tail h2 ⟨.producer, .prodPut _ _ rfl (by decide)⟩
  have h4 : Reachable ⟨[0], [], false, .present, .getting, 1⟩ :=
    Relation.ReflTransGen.tail h3 ⟨.consumer, .consCheckRun _ rfl rfl⟩
  have h5 : Reachable ⟨[], [], false, .present, .putting 0, 1⟩ :=
    Relation.ReflTransGen.tail h4 ⟨.consumer, .consGet _ _ _ rfl rfl⟩
  have h6 : Reachable ⟨[], [0], false, .present, .loopCheck, 1⟩ :=
    Relation.ReflTransGen.tail h5 ⟨.consumer, .consPut _ _ rfl (by decide)⟩
  have h7 : Reachable ⟨[], [0], false, .present, .getting, 1⟩ :=
    Relation.ReflTransGen.tail h6 ⟨.consumer, .consCheckRun _ rfl rfl⟩
  have h8 : Reachable ⟨[], [], false, .present, .getting, 1⟩ :=
    Relation.ReflTransGen.tail h7 ⟨.producer, .presentOne _ rfl (by decide)⟩
  have h9 : Reachable ⟨[], [], false, .capture, .getting, 1⟩ :=
    Relation.ReflTransGen.tail h8 ⟨.producer, .presentDone _ rfl rfl⟩
  have h10 : Reachable ⟨[], [], false, .settingQuit, .getting, 1⟩ :=
    Relation.ReflTransGen.tail h9 ⟨.producer, .interrupt _ rfl⟩
  exact Relation.ReflTransGen.tail h10 ⟨.producer, .setQuitFlag _ rfl⟩

/-- Claim C3 witness: the invariant applied at the reachable state
`stuckState`. -/
theorem queue_bound_invariant_witness :
    stuckState.camQ.length ≤ 4 ∧ stuckState.outQ.length ≤ 4 :=
  queue_bound_invariant stuckState reachable_stuckState

/-- Claim C6 counterexample: `stuckState` is reachable, the shutdown flag
is set, the consumer has not stopped, yet neither thread has any enabled
step (cf. `stepEnabled_iff`) — the consumer sits in `cam_queue.get()`,
which has no timeout, on an empty queue, so it never observes shutdown at
all, refuting the claim that shutdown is observed within one loop
iteration's latency and that the dequeue is time-bounded. -/
theorem shutdown_not_observed :
    Reachable stuckState ∧ stuckState.quit = true ∧
    stuckState.cons ≠ ConsPC.stopped ∧
    stepEnabled .consumer stuckState = false ∧
    stepEnabled .producer stuckState = false :=
  ⟨reachable_stuckState, rfl, by decide, rfl, rfl⟩

/-- Claim C6 (amended): both loops do check the shared shutdown flag at
the top of each iteration, but the consumer's dequeue is an untimed
blocking `get`: whenever the consumer is at the dequeue with an empty
input queue it has no step at all, whatever the shutdown flag, so
observation of shutdown is not bounded by one loop iteration — it is
delayed indefinitely while the input queue stays empty. -/
theorem consumer_get_blocks (s s2 : PipeState) (h : s.cons = .getting)
    (hq : s.camQ = []) : ¬ Step .consumer s s2 := by
  intro hstep
  cases hstep <;> simp_all

/-- Claim C6 witness: the amended theorem applied at `stuckState`. -/
theorem consumer_get_blocks_witness : ¬ Step .consumer stuckState initState :=
  consumer_get_blocks stuckState initState rfl rfl

/-- Helper: a state in which the consumer faces a full output queue while
holding a result is reachable (the producer pushes four frames, the
consumer processes them into the output queue while the presentation side
has not drained, then the consumer dequeues a fifth frame). -/
theorem reachable_blockedPutState : Reachable blockedPutState := by
  have g0 : Reachable initState := Relation.ReflTransGen.refl
  have g1 : Reachable ⟨[], [], false, .checkFull 0, .loopCheck, 1⟩ :=
    Relation.ReflTransGen.tail g0 ⟨.producer, .capture _ rfl⟩
  have g2 : Reachable ⟨[], [], false, .putting 0, .loopCheck, 1⟩ :=
    Relation.ReflTransGen.tail g1 ⟨.producer, .checkFullFalse _ _ rfl (by decide)⟩
  have g3 : Reachable ⟨[0], [], false, .present, .loopCheck, 1⟩ :=
    Relation.ReflTransGen.tail g2 ⟨.producer, .prodPut _ _ rfl (by decide)⟩
  have g4 : Reachable ⟨[0], [], false, .capture, .loopCheck, 1⟩ :=
    Relation.ReflTransGen.tail g3 ⟨.producer, .presentDone _ rfl rfl⟩
  have g5 : Reachable ⟨[0], [], false, .checkFull 1, .loopCheck, 2⟩ :=
    Relation.ReflTransGen.tail g4 ⟨.producer, .capture _ rfl⟩
  have g6 : Reachable ⟨[0], [], false, .putting 1, .loopCheck, 2⟩ :=
    Relation.ReflTransGen.tail g5 ⟨.producer, .checkFullFalse _ _ rfl (by decide)⟩
  have g7 : Reachable ⟨[0, 1], [], false, .present, .loopCheck, 2⟩ :=
    Relation.ReflTransGen.tail g6 ⟨.producer, .prodPut _ _ rfl (by decide)⟩
  have g8 : Reachable ⟨[0, 1], [], false, .capture, .loopCheck, 2⟩ :=
    Relation.ReflTransGen.tail g7 ⟨.producer, .presentDone _ rfl rfl⟩
  have g9 : Reachable ⟨[0, 1], [], false, .checkFull 2, .loopCheck, 3⟩ :=
    Relation.ReflTransGen.tail g8 ⟨.producer, .capture _ rfl⟩
  have g10 : Reachable ⟨[0, 1], [], false, .putting 2, .loopCheck, 3⟩ :=
    Relation.ReflTransGen.tail g9 ⟨.producer, .checkFullFalse _ _ rfl (by decide)⟩
  have g11 : Reachable ⟨[0, 1, 2], [], false, .present, .loopCheck, 3⟩ :=
    Relation.ReflTransGen.tail g10 ⟨.producer, .prodPut _ _ rfl (by decide)⟩
  have g12 : Reachable ⟨[0, 1, 2], [], false, .capture, .loopCheck, 3⟩ :=
    Relation.ReflTransGen.tail g11 ⟨.producer, .presentDone _ rfl rfl⟩
  have g13 : Reachable ⟨[0, 1, 2], [], false, .checkFull 3, .loopCheck, 4⟩ :=
    Relation.ReflTransGen.tail g12 ⟨.producer, .capture _ rfl⟩
  have g14 : Reachable ⟨[0, 1, 2], [], false, .putting 3, .loopCheck, 4⟩ :=
    Relation.ReflTransGen.tail g13 ⟨.producer, .checkFullFalse _ _ rfl (by decide)⟩
  have g15 : Reachable ⟨[0, 1, 2, 3], [], false, .present, .loopCheck, 4⟩ :=
    Relation.ReflTransGen.tail g14 ⟨.producer, .prodPut _ _ rfl (by decide)⟩
  have g16 : Reachable ⟨[0, 1, 2, 3], [], false, .capture, .loopCheck, 4⟩ :=
    Relation.ReflTransGen.tail g15 ⟨.producer, .presentDone _ rfl rfl⟩
  have g17 : Reachable ⟨[0, 1, 2, 3], [], false, .capture, .getting, 4⟩ :=
    Relation.ReflTransGen.tail g16 ⟨.consumer, .consCheckRun _ rfl rfl⟩
  have g18 : Reachable ⟨[1, 2, 3], [], false, .capture, .putting 0, 4⟩ :=
    Relation.ReflTransGen.tail g17 ⟨.consumer, .consGet _ _ _ rfl rfl⟩
  have g19 : Reachable ⟨[1, 2, 3], [0], false, .capture, .loopCheck, 4⟩ :=
    Relation.ReflTransGen.tail g18 ⟨.consumer, .consPut _ _ rfl (by decide)⟩
  have g20 : Reachable ⟨[1, 2, 3], [0], false, .capture, .getting, 4⟩ :=
    Relation.ReflTransGen.tail g19 ⟨.consumer, .consCheckRun _ rfl rfl⟩
  have g21 : Reachable ⟨[2, 3], [0], false, .capture, .putting 1, 4⟩ :=
    Relation.ReflTransGen.tail g20 ⟨.consumer, .consGet _ _ _ rfl rfl⟩
  have g22 : Reachable ⟨[2, 3], [0, 1], false, .capture, .loopCheck, 4⟩ :=
    Relation.ReflTransGen.tail g21 ⟨.consumer, .consPut _ _ rfl (by decide)⟩
  have g23 : Reachable ⟨[2, 3], [0, 1], false, .capture, .getting, 4⟩ :=
    Relation.ReflTransGen.tail g22 ⟨.consumer, .consCheckRun _ rfl rfl⟩
  have g24 : Reachable ⟨[3], [0, 1], false, .capture, .putting 2, 4⟩ :=
    Relation.ReflTransGen.tail g23 ⟨.consumer, .consGet _ _ _ rfl rfl⟩
  have g25 : Reachable ⟨[3], [0, 1, 2], false, .capture, .loopCheck, 4⟩ :=
    Relation.ReflTransGen.tail g24 ⟨.consumer, .consPut _ _ rfl (by decide)⟩
  have g26 : Reachable ⟨[3], [0, 1, 2], false, .capture, .getting, 4⟩ :=
    Relation.ReflTransGen.tail g25 ⟨.consumer, .consCheckRun _ rfl rfl⟩
  have g27 : Reachable ⟨[], [0, 1, 2], false, .capture, .putting 3, 4⟩ :=
    Relation.ReflTransGen.tail g26 ⟨.consumer, .consGet _ _ _ rfl rfl⟩
  have g28 : Reachable ⟨[], [0, 1, 2, 3], false, .capture, .loopCheck, 4⟩ :=
    Relation.ReflTransGen.tail g27 ⟨.consumer, .consPut _ _ rfl (by decide)⟩
  have g29 : Reachable ⟨[], [0, 1, 2, 3], false, .checkFull 4, .loopCheck, 5⟩ :=
    Relation.ReflTransGen.tail g28 ⟨.producer, .capture _ rfl⟩
  have g30 : Reachable ⟨[], [0, 1, 2, 3], false, .putting 4, .loopCheck, 5⟩ :=
    Relation.ReflTransGen.tail g29 ⟨.producer, .checkFullFalse _ _ rfl (by decide)⟩
  have g31 : Reachable ⟨[4], [0, 1, 2, 3], false, .present, .loopCheck, 5⟩ :=
    Relation.ReflTransGen.tail g30 ⟨.producer, .prodPut _ _ rfl (by decide)⟩
  have g32 : Reachable ⟨[4], [0, 1, 2, 3], false, .present, .getting, 5⟩ :=
    Relation.ReflTransGen.tail g31 ⟨.consumer, .consCheckRun _ rfl rfl⟩
  exact Relation.ReflTransGen.tail g32 ⟨.consumer, .consGet _ _ _ rfl rfl⟩

/-- Claim C2 counterexample: in the reachable state `blockedPutState` the
output queue is full and the consumer, holding a processed result, has no
enabled step (cf. `stepEnabled_iff`): its `out_queue.put` blocks. Under
the claimed drop-all-keep-latest policy — the input-side `pushFrame` — the
push would instead discard the queued results and enqueue the newest one
without blocking. -/
theorem consumer_put_blocked_counterexample :
    Reachable blockedPutState ∧ blockedPutState.outQ.length = 4 ∧
    stepEnabled .consumer blockedPutState = false ∧
    pushFrame blockedPutState.outQ 4 = [4] :=
  ⟨reachable_blockedPutState, rfl, rfl, by decide⟩

/-- Claim C2 (amended): the consumer pushes each processed result with a
plain blocking `out_queue.put`: whenever the output queue is full the
consumer has no step (it blocks until the presentation side drains) and
no queued result is discarded; the drop-all-keep-latest overflow policy
exists only on the producer's input side. -/
theorem consumer_put_blocks (s s2 : PipeState) (r : Frame)
    (h : s.cons = .putting r) (hq : 4 ≤ s.outQ.length) :
    ¬ Step .consumer s s2 := by
  intro hstep
  cases hstep <;> simp_all
  omega

/-- Claim C2 witness: the amended theorem applied at `blockedPutState`. -/
theorem consumer_put_blocks_witness : ¬ Step .consumer blockedPutState initState :=
  consumer_put_blocks blockedPutState initState 4 rfl (by decide)

/-- Claim C8: palette generation is deterministic across runs — whatever
the ambient global RNG state and whatever entropy the trailing
`np.random.seed(None)` picks up, two runs on the same class list produce
the same shuffled color list, hence the same color-per-class mapping: the
shuffle is driven entirely by the hard-coded seed 10101 planted
immediately before it. -/
theorem generateColors_deterministic (classNames : List String)
    (a1 a2 e1 e2 : ℕ) :
    (generateColors classNames a1 e1).1 = (generateColors classNames a2 e2).1 ∧
    classNames.zip (generateColors classNames a1 e1).1
      = classNames.zip (generateColors classNames a2 e2).1 :=
  ⟨rfl, rfl⟩

/-- Claim C7 counterexample: `detect_image` is not read-only on its input
frame: drawing one in-frame detection changes the input frame's pixel
buffer (here the pixel at column 150, row 100 turns from black to the
class color) and the returned reference is the input reference itself,
not a separate annotated copy. -/
theorem detect_image_mutates_input :
    ((detectImageHeap blankHeap 0 416 416 [(255, 0, 0)] 20 10
        [sampleDetection]).1 0) 150 100 ≠ blankHeap 0 150 100 ∧
    (detectImageHeap blankHeap 0 416 416 [(255, 0, 0)] 20 10
        [sampleDetection]).2 = 0 := by
  have ht : clipTop (100 : ℚ) = 100 := by
    unfold clipTop
    rw [roundHalfUp_eq 100 100 (by norm_num) (by norm_num)]
    decide
  have hl : clipLeft (100 : ℚ) = 100 := by
    unfold clipLeft
    rw [roundHalfUp_eq 100 100 (by norm_num) (by norm_num)]
    decide
  have hb : clipBottom 416 (200 : ℚ) = 200 := by
    unfold clipBottom
    rw [roundHalfUp_eq 200 200 (by norm_num) (by norm_num)]
    decide
  have hr : clipRight 416 (200 : ℚ) = 200 := by
    unfold clipRight
    rw [roundHalfUp_eq 200 200 (by norm_num) (by norm_num)]
    decide
  refine ⟨?_, rfl⟩
  show renderDetection 416 416 [(255, 0, 0)] 20 10 (blankHeap 0)
      sampleDetection 150 100 ≠ blankHeap 0 150 100
  unfold renderDetection
  simp only [sampleDetection]
  rw [ht, hl, hb, hr]
  decide

/-- Claim C7 (amended): `detect_image` annotates the frame passed in — it
draws into that frame's own buffer and returns the very same frame
reference, not a separate copy — while buffers of all other frames on the
heap are left untouched. -/
theorem detectImageHeap_in_place (hp : Heap) (r r2 w h : ℕ)
    (colors : List Color) (labelW labelH : ℤ) (dets : List Detection)
    (hne : r2 ≠ r) :
    (detectImageHeap hp r w h colors labelW labelH dets).2 = r ∧
    (detectImageHeap hp r w h colors labelW labelH dets).1 r2 = hp r2 := by
  refine ⟨rfl, ?_⟩
  simp [detectImageHeap, hne]

/-- Claim C7 witness: the amended theorem applied to the concrete heap and
detection, with reference 1 distinct from the annotated reference 0. -/
theorem detectImageHeap_in_place_witness :
    (detectImageHeap blankHeap 0 416 416 [(255, 0, 0)] 20 10
        [sampleDetection]).2 = 0 ∧
    (detectImageHeap blankHeap 0 416 416 [(255, 0, 0)] 20 10
        [sampleDetection]).1 1 = blankHeap 1 :=
  detectImageHeap_in_place blankHeap 0 1 416 416 [(255, 0, 0)] 20 10
    [sampleDetection] (by decide)

/-- Claim C10 witness: the amended theorem applied in interactive mode
(empty path) with an always-failing open. -/
theorem detectImg_open_failure_retries_witness :
    detectImgIter "" "a.jpg" (fun _ => false) = .retry ∧
    (promptsFor "" = true ↔ "" = "") ∧
    chosenImg "" "a.jpg" = (if "" = "" then "a.jpg" else "") :=
  detectImg_open_failure_retries "" "a.jpg" (fun _ => false) rfl

end Yolo
